import Mathlib

/-!
Verification of the titan resource model (src/titan/resources/base.py and
src/titan/resources/validators.py): a shallow embedding of the resource
entity model, the scope/FQN rules, the reference tracker and the SQL
lifecycle generators, together with theorems settling the specification
claims about them.

Python object identity is made explicit: every constructed entity carries
an object id `oid`, and construction threads a fresh-id counter `k` (each
allocation uses the current counter value and bumps it).  Python `None`
becomes `Option.none`, exceptions become `Except`, and `dict`s in
insertion order become association lists.
-/

namespace Titan

/-- Models Python `str.upper` on the ASCII identifier alphabet: uppercases
every basic-latin letter, character by character (`Char.toUpper` is exactly
the basic-latin uppercasing). -/
def str_upper (s : String) : String := String.mk (s.data.map Char.toUpper)

/-- Embeds `normalize_resource_name` (base.py:32-33): `return name.upper()`.
Applied to every `ResourceName` field by the `AfterValidator` on
base.py:37, so it runs on each entity's `name` at construction. -/
def normalize_resource_name (name : String) : String := str_upper name

/-- Whitespace characters, as stripped by the text-assembly helper. -/
def isWs (c : Char) : Bool := c = ' ' || c = '\t' || c = '\n' || c = '\r'

/-- Strips leading and trailing whitespace from a character list. -/
def trimChars (l : List Char) : List Char :=
  ((l.dropWhile isWs).reverse.dropWhile isWs).reverse

/-- String trim over `trimChars`. -/
def strim (s : String) : String := String.mk (trimChars s.data)

/-- Joins a list of fragments with single spaces. -/
def joinFragments : List String → String
  | [] => ""
  | [f] => f
  | f :: rest => f ++ " " ++ joinFragments rest

/-- Modelled from the spec: `tidy_sql` (imported in base.py:17 from
`..builder`, which is not under src/) is the text-assembly collaborator
"joining ordered, non-empty fragments into clean text"; statement-text
whitespace cleanup is delegated to it.  It drops empty fragments, strips
surrounding whitespace from each remaining fragment, and joins them with
single spaces — on the spec's own example this yields
`DROP ACCOUNT <fqn> GRACE_PERIOD_IN_DAYS = 7` from the fragments of
`Account.lifecycle_delete`. -/
def tidy_sql (frags : List String) : String :=
  joinFragments ((frags.map strim).filter (fun f => f ≠ ""))

/-- Modelled from the spec: the `FQN` identifier record (imported in
base.py:16 from `..identifiers`, not under src/): "ordered optional
segments — organization, database, schema, name —  depending on entity
depth; missing intermediate segments are simply absent". Only the segments
produced by the scope traits in base.py appear here. -/
structure FQN where
  database : Option String := none
  schema : Option String := none
  name : String
deriving Repr, DecidableEq

/-- Python exceptions surfaced by the embedded code paths. -/
inductive PyErr where
  /-- attribute lookup failed (e.g. a method the object does not define) -/
  | attributeError
  /-- sequence index out of range (e.g. `resources[0]` on an empty tuple) -/
  | indexError
  /-- `dict.popitem()` on an empty dict -/
  | keyError
deriving Repr, DecidableEq

/-- A Python literal handed to `lifecycle_update` as the new value of an
attribute. -/
inductive SqlValue where
  | str (s : String)
  | int (n : Int)
  | bool (b : Bool)
deriving Repr, DecidableEq

/-- Python `str()` of the literal, as interpolated into statement text. -/
def SqlValue.pyStr : SqlValue → String
  | .str s => s
  | .int n => toString n
  | .bool b => if b then "True" else "False"

/-- The single-quote character (code point 39) as a string. -/
def sq : String := String.singleton (Char.ofNat 39)

/-- Embeds base.py:356: `f"'{new_value}'" if isinstance(new_value, str)
else new_value` — strings are single-quoted, other literals are passed
through unchanged. -/
def SqlValue.quoted : SqlValue → String
  | .str s => sq ++ s ++ sq
  | v => v.pyStr

/-- Embeds the `Organization` resource (base.py:149-152): `name` is its
only declared field.  `oid` is the Python object identity, `implicit` and
`stub` the flags every `Resource` carries (base.py:69-70), and `refs` the
per-instance `_refs` list (base.py:71), holding the `oid`s of the
referenced entities. -/
structure Organization where
  oid : Nat
  name : String
  implicit : Bool
  stub : Bool
  refs : List Nat
deriving Repr, DecidableEq

/-- Embeds the `Account` resource (base.py:177-254): OrganizationScoped,
with the declared property fields of base.py:213-224 (all default `None`
except `name`). -/
structure Account where
  oid : Nat
  name : String
  implicit : Bool
  stub : Bool
  organization : Option Organization
  admin_name : Option String
  admin_password : Option String
  admin_rsa_public_key : Option String
  first_name : Option String
  last_name : Option String
  email : Option String
  must_change_password : Option Bool
  comment : Option String
  refs : List Nat
deriving Repr, DecidableEq

/-- Embeds the `Database` resource (base.py:277-377): AccountScoped, with
the declared property fields of base.py:307-314 and their defaults
(`transient=False`, `owner="SYSADMIN"`, `data_retention_time_in_days=1`,
`max_data_extension_time_in_days=14`, the rest `None`). -/
structure Database where
  oid : Nat
  name : String
  implicit : Bool
  stub : Bool
  account : Option Account
  transient : Bool
  owner : String
  data_retention_time_in_days : Int
  max_data_extension_time_in_days : Int
  default_ddl_collation : Option String
  tags : Option (List (String × String))
  comment : Option String
  refs : List Nat
deriving Repr, DecidableEq

/-- Embeds the `Schema` resource (base.py:400-450): DatabaseScoped, with
the declared property fields of base.py:430-438 and their defaults
(`transient=False`, `owner="SYSADMIN"`, the rest `None`). -/
structure Schema where
  oid : Nat
  name : String
  implicit : Bool
  stub : Bool
  database : Option Database
  transient : Bool
  owner : String
  with_managed_access : Option Bool
  data_retention_time_in_days : Option Int
  max_data_extension_time_in_days : Option Int
  default_ddl_collation : Option String
  tags : Option (List (String × String))
  comment : Option String
  refs : List Nat
deriving Repr, DecidableEq

/-- A value assigned to the `organization` scope link: Python duck-typing
admits a bare string or an entity. -/
inductive OrgLink where
  | str (s : String)
  | entity (o : Organization)
deriving Repr, DecidableEq

/-- A value assigned to the `account` scope link. -/
inductive AccountLink where
  | str (s : String)
  | entity (a : Account)
deriving Repr, DecidableEq

/-- A value assigned to the `database` scope link. -/
inductive DatabaseLink where
  | str (s : String)
  | entity (d : Database)
deriving Repr, DecidableEq

/-- Embeds constructing `Organization(name=...)`: field validation
normalizes the name (base.py:37), and `Resource.model_post_init`
(base.py:73-80) finds no resource-valued field, so `_refs` stays empty. -/
def Organization.construct (k : Nat) (name : String) (implicit stub : Bool) :
    Organization × Nat :=
  ({ oid := k, name := normalize_resource_name name, implicit := implicit, stub := stub,
     refs := [] }, k + 1)

/-- Embeds `coerce_from_str(Organization)` (validators.py:7-14) as used by
the `BeforeValidator` on `OrganizationScoped.organization`
(base.py:158-161): a string becomes `Organization(name=s, stub=True)`
(a fresh allocation), anything else is returned unchanged. -/
def coerce_from_str_Organization (k : Nat) : OrgLink → Organization × Nat
  | .str s =>
    let r := Organization.construct k s false true
    (r.1, r.2)
  | .entity o => (o, k)

/-- Embeds constructing `Account(...)` (base.py:177-224): the organization
link is coerced by `coerce_from_str` (base.py:158-161), the name is
normalized, and `Resource.model_post_init` (base.py:73-80) appends each
non-stub resource-valued field — here only `organization` — to `_refs`. -/
def Account.construct (k : Nat) (name : String) (organization : Option OrgLink)
    (implicit stub : Bool)
    (admin_name admin_password admin_rsa_public_key first_name last_name email : Option String)
    (must_change_password : Option Bool) (comment : Option String) : Account × Nat :=
  let orgRes : Option Organization × Nat :=
    match organization with
    | none => (none, k + 1)
    | some l =>
      let (o, k') := coerce_from_str_Organization (k + 1) l
      (some o, k')
  ({ oid := k, name := normalize_resource_name name, implicit := implicit, stub := stub,
     organization := orgRes.1,
     admin_name := admin_name, admin_password := admin_password,
     admin_rsa_public_key := admin_rsa_public_key, first_name := first_name,
     last_name := last_name, email := email,
     must_change_password := must_change_password, comment := comment,
     refs := match orgRes.1 with
             | some o => if o.stub then [] else [o.oid]
             | none => [] }, orgRes.2)

/-- Embeds `coerce_from_str(Account)` (validators.py:7-14) as used by the
`BeforeValidator` on `AccountScoped.account` (base.py:260-263): a string
becomes `Account(name=s, stub=True)` with every other field at its
default, anything else is returned unchanged. -/
def coerce_from_str_Account (k : Nat) : AccountLink → Account × Nat
  | .str s =>
    Account.construct k s none false true none none none none none none none none
  | .entity a => (a, k)

/-- The body of `Schema.__init__` once the database link has already been
validated: name normalization (base.py:37) and the `_refs` bookkeeping of
`Resource.model_post_init` (base.py:73-80), which records the `database`
field exactly when it holds a non-stub resource. -/
def Schema.fromFields (oid : Nat) (name : String) (implicit stub : Bool)
    (database : Option Database) (transient : Bool) (owner : String)
    (with_managed_access : Option Bool)
    (data_retention_time_in_days max_data_extension_time_in_days : Option Int)
    (default_ddl_collation : Option String) (tags : Option (List (String × String)))
    (comment : Option String) : Schema :=
  { oid := oid, name := normalize_resource_name name, implicit := implicit, stub := stub,
    database := database, transient := transient, owner := owner,
    with_managed_access := with_managed_access,
    data_retention_time_in_days := data_retention_time_in_days,
    max_data_extension_time_in_days := max_data_extension_time_in_days,
    default_ddl_collation := default_ddl_collation, tags := tags, comment := comment,
    refs := match database with
            | some d => if d.stub then [] else [d.oid]
            | none => [] }

/-- Embeds constructing `Database(...)` (base.py:277-321).  The account
link is coerced (base.py:260-263), the name normalized, `_refs` records a
non-stub account (base.py:73-80); then `Database.model_post_init`
(base.py:316-321) constructs `Schema(name="PUBLIC", implicit=True)` and
`Schema(name="INFORMATION_SCHEMA", implicit=True)` and hands them to
`Database.add` (base.py:367-371), which assigns `resource.database = self`
on each.  The assignment happens after the children's own construction, so
their `_refs` stay empty.  The children are returned alongside the
database: the Python code keeps no collection of them, they exist only
through their back-link. -/
def Database.construct (k : Nat) (name : String) (account : Option AccountLink)
    (implicit stub transient : Bool) (owner : String)
    (data_retention_time_in_days max_data_extension_time_in_days : Int)
    (default_ddl_collation : Option String) (tags : Option (List (String × String)))
    (comment : Option String) : Database × List Schema × Nat :=
  let acctRes : Option Account × Nat :=
    match account with
    | none => (none, k + 1)
    | some l =>
      let (a, k') := coerce_from_str_Account (k + 1) l
      (some a, k')
  let db : Database :=
    { oid := k, name := normalize_resource_name name, implicit := implicit, stub := stub,
      account := acctRes.1, transient := transient, owner := owner,
      data_retention_time_in_days := data_retention_time_in_days,
      max_data_extension_time_in_days := max_data_extension_time_in_days,
      default_ddl_collation := default_ddl_collation, tags := tags, comment := comment,
      refs := match acctRes.1 with
              | some a => if a.stub then [] else [a.oid]
              | none => [] }
  let pub := Schema.fromFields acctRes.2 ("PUBLIC") true false none false ("SYSADMIN")
    none none none none none none
  let info := Schema.fromFields (acctRes.2 + 1) ("INFORMATION_SCHEMA") true false none false
    ("SYSADMIN") none none none none none none
  (db, [{ pub with database := some db }, { info with database := some db }], acctRes.2 + 2)

/-- Embeds `coerce_from_str(Database)` (validators.py:7-14) as used by the
`BeforeValidator` on `DatabaseScoped.database` (base.py:383-386): a string
becomes `Database(name=s, stub=True)` — a full `Database` construction,
children, allocations and all — anything else is returned unchanged. -/
def coerce_from_str_Database (k : Nat) : DatabaseLink → Database × Nat
  | .str s =>
    let r := Database.construct k s none false true false ("SYSADMIN") 1 14 none none none
    (r.1, r.2.2)
  | .entity d => (d, k)

/-- Embeds constructing `Schema(...)` (base.py:400-438): the database link
is coerced by `coerce_from_str(Database)` (base.py:383-386), then the
common construction body runs. -/
def Schema.construct (k : Nat) (name : String) (database : Option DatabaseLink)
    (implicit stub transient : Bool) (owner : String) (with_managed_access : Option Bool)
    (data_retention_time_in_days max_data_extension_time_in_days : Option Int)
    (default_ddl_collation : Option String) (tags : Option (List (String × String)))
    (comment : Option String) : Schema × Nat :=
  let dbRes : Option Database × Nat :=
    match database with
    | none => (none, k + 1)
    | some l =>
      let (d, k') := coerce_from_str_Database (k + 1) l
      (some d, k')
  (Schema.fromFields k name implicit stub dbRes.1 transient owner with_managed_access
    data_retention_time_in_days max_data_extension_time_in_days default_ddl_collation
    tags comment, dbRes.2)

/-- Embeds `OrganizationScoped.fully_qualified_name` (base.py:163-165),
inherited by `Account`: `FQN(name=self.name.upper())`. -/
def Account.fully_qualified_name (a : Account) : FQN :=
  { name := str_upper a.name }

/-- Embeds `AccountScoped.fully_qualified_name` (base.py:265-267),
inherited by `Database`: `FQN(name=self.name.upper())`. -/
def Database.fully_qualified_name (d : Database) : FQN :=
  { name := str_upper d.name }

/-- Embeds `DatabaseScoped.fully_qualified_name` (base.py:388-390),
inherited by `Schema`:
`FQN(database=self.database.name if self.database else None, name=self.name.upper())`. -/
def Schema.fully_qualified_name (s : Schema) : FQN :=
  { database := s.database.map (fun d => d.name), name := str_upper s.name }

/-- Embeds `Resource._requires` (base.py:114-115): `self._refs.add(resource)`.
`_refs` is declared as a Python `list` (base.py:71), and list objects
define no method `add` (that is the `set` API), so the attribute lookup
itself raises `AttributeError` before anything is recorded; the `_refs`
state is unchanged when the exception propagates. -/
def Resource.requires_one (refs : List Nat) (resource : Nat) : Except PyErr (List Nat) :=
  let _ := refs
  let _ := resource
  .error .attributeError

/-- The `for resource in resources: self._requires(resource)` loop of
`Resource.requires` (base.py:120-121), propagating the first exception. -/
def Resource.requiresLoop (refs : List Nat) : List Nat → Except PyErr (List Nat)
  | [] => .ok refs
  | r :: rs =>
    match Resource.requires_one refs r with
    | .error e => .error e
    | .ok refs2 => Resource.requiresLoop refs2 rs

/-- Embeds `Resource.requires` (base.py:117-122).  `resources[0]` on an
empty varargs tuple raises `IndexError`; otherwise the loop delegates each
element to `_requires`. -/
def Resource.requires (refs : List Nat) (resources : List Nat) : Except PyErr (List Nat) :=
  match resources with
  | [] => .error .indexError
  | rs => Resource.requiresLoop refs rs

/-- Embeds `Database.lifecycle_update` (base.py:335-365).  `change` is the
Python dict in insertion order; `change.popitem()` pops its most recently
inserted pair (`KeyError` when empty).  The `new_value is None` test comes
first, then the `attr == "NAME"` test, then the quoting `SET` branch. -/
def Database.lifecycle_update (fqn : String) (change : List (String × Option SqlValue))
    (if_exists : Bool) : Except PyErr String :=
  match change.getLast? with
  | none => .error .keyError
  | some (attr0, new_value) =>
    let attr := str_upper attr0
    match new_value with
    | none =>
      .ok (tidy_sql ["ALTER DATABASE", if if_exists then "IF EXISTS" else "", fqn,
        "UNSET", attr])
    | some v =>
      if attr = "NAME" then
        .ok (tidy_sql ["ALTER DATABASE", if if_exists then "IF EXISTS" else "", fqn,
          "RENAME TO", v.pyStr])
      else
        .ok (tidy_sql ["ALTER DATABASE", if if_exists then "IF EXISTS" else "", fqn,
          "SET", attr, "=", v.quoted])

/-- Embeds `Account.lifecycle_delete` (base.py:234-242): fragments
`DROP ACCOUNT`, the optional `IF EXISTS`, the fqn, the literal
`"GRACE_PERIOD_IN_DAYS = "` and the integer, assembled by `tidy_sql`. -/
def Account.lifecycle_delete (fqn : String) (if_exists : Bool)
    (grace_period_in_days : Int) : String :=
  tidy_sql ["DROP ACCOUNT", if if_exists then "IF EXISTS" else "", fqn,
    "GRACE_PERIOD_IN_DAYS = ", toString grace_period_in_days]

/-- Any resource entity, for the duck-typed scope-link positions. -/
inductive ResourceValue where
  | org (o : Organization)
  | acct (a : Account)
  | db (d : Database)
  | schema (s : Schema)
deriving Repr, DecidableEq

/-- Any value a caller may assign to a scope-link field: a bare string, or
an entity of an arbitrary kind (Python performs no kind check before the
validator runs). -/
inductive LinkArg where
  | str (s : String)
  | res (r : ResourceValue)
deriving Repr, DecidableEq

/-- Embeds `coerce_from_str(Database)` (validators.py:7-14) exactly as it
receives an arbitrary assigned value for `DatabaseScoped.database`
(base.py:383-386): `if isinstance(name_or_resource, str)` build a stub
`Database`, `else` return the value unchanged.  The function body has no
failure branch, performs no kind check, and the repository defines no
`ScopeMismatch` error anywhere. -/
def coerce_from_str_database_validator (k : Nat) : LinkArg → ResourceValue × Nat
  | .str s =>
    let r := coerce_from_str_Database k (.str s)
    (.db r.1, r.2)
  | .res r => (r, k)

/-! ## Sanity checks: the embedding on the spec's own concrete examples -/

example : (Database.construct 0 ("db1") none false false false ("SYSADMIN") 1 14
    none none none).1.name = "DB1" := by decide

example : Account.lifecycle_delete ("AC1") false 7
    = "DROP ACCOUNT AC1 GRACE_PERIOD_IN_DAYS = 7" := by decide

example : Database.lifecycle_update ("DB1") [(("comment"), none)] false
    = .ok ("ALTER DATABASE DB1 UNSET COMMENT") := rfl

example : Database.lifecycle_update ("DB1") [(("name"), some (.str ("NEW")))] false
    = .ok ("ALTER DATABASE DB1 RENAME TO NEW") := rfl

example : (Schema.construct 0 ("s1") (some (.str ("db1"))) false false false ("SYSADMIN")
    none none none none none none).1.fully_qualified_name
    = { database := some ("DB1"), name := "S1" } := by decide

/-! ## Helper lemmas -/

theorem string_append_assoc (a b c : String) : a ++ b ++ c = a ++ (b ++ c) := by
  apply String.ext
  simp [String.data_append]

theorem merge_lit {a b c : String} (h : a ++ b = c) (x : String) :
    a ++ (b ++ x) = c ++ x := by
  rw [← string_append_assoc, h]

theorem char_toNat_ofNat (n : Nat) (h : n < 55296) : (Char.ofNat n).toNat = n := by
  rw [Char.ofNat, dif_pos (Or.inl h)]
  rfl

theorem char_toUpper_idem (c : Char) : c.toUpper.toUpper = c.toUpper := by
  simp only [Char.toUpper]
  by_cases h : c.toNat ≥ 97 ∧ c.toNat ≤ 122
  · rw [if_pos h]
    have h32 : (Char.ofNat (c.toNat - 32)).toNat = c.toNat - 32 := char_toNat_ofNat _ (by omega)
    rw [if_neg (by omega)]
  · rw [if_neg h, if_neg h]

theorem mapUpper_idem (l : List Char) :
    (l.map Char.toUpper).map Char.toUpper = l.map Char.toUpper := by
  induction l with
  | nil => rfl
  | cons c cs ih => simp [char_toUpper_idem, ih]

theorem str_upper_idem (s : String) : str_upper (str_upper s) = str_upper s :=
  congrArg String.mk (mapUpper_idem s.data)

/-! ## Claim theorems -/

/-- Claim C1: for the database kind, `lifecycle_update(fqn, change)` with exactly
one `(attribute, newValue)` pair emits an `ALTER DATABASE` statement on the given
fqn: `newValue = None` emits `UNSET <ATTRIBUTE>`; attribute `name` emits
`RENAME TO <newValue>`; otherwise `SET <ATTRIBUTE> = <value>` with string values
single-quoted and non-string literals passed through unquoted (base.py:335-365).
The hypotheses say the fqn, the uppercased attribute and the rendered value are
non-empty and carry no surrounding whitespace, so that the text-assembly
collaborator leaves them as given. -/
theorem database_lifecycle_update_single_change (fqn attr : String) (v : SqlValue)
    (hf : strim fqn = fqn) (hf0 : fqn ≠ "")
    (ha : strim (str_upper attr) = str_upper attr) (ha0 : str_upper attr ≠ "")
    (hv : strim v.pyStr = v.pyStr) (hv0 : v.pyStr ≠ "")
    (hq : strim v.quoted = v.quoted) (hq0 : v.quoted ≠ "") :
    Database.lifecycle_update fqn [(attr, none)] false
      = .ok ("ALTER DATABASE " ++ fqn ++ " UNSET " ++ str_upper attr) ∧
    (str_upper attr = "NAME" →
      Database.lifecycle_update fqn [(attr, some v)] false
        = .ok ("ALTER DATABASE " ++ fqn ++ " RENAME TO " ++ v.pyStr)) ∧
    (str_upper attr ≠ "NAME" →
      Database.lifecycle_update fqn [(attr, some v)] false
        = .ok ("ALTER DATABASE " ++ fqn ++ " SET " ++ str_upper attr ++ " = " ++ v.quoted)) := by
  have e1 : strim ("ALTER DATABASE") = "ALTER DATABASE" := by decide
  have e2 : strim ("") = "" := by decide
  have e3 : strim ("UNSET") = "UNSET" := by decide
  have e4 : strim ("RENAME TO") = "RENAME TO" := by decide
  have e5 : strim ("SET") = "SET" := by decide
  have e6 : strim ("=") = "=" := by decide
  refine ⟨?_, ?_, ?_⟩
  · simp [Database.lifecycle_update, List.getLast?, List.getLastD, tidy_sql, List.filter,
      hf, hf0, ha, ha0, e1, e2, e3, joinFragments, string_append_assoc,
      merge_lit (show ((" " : String) ++ "UNSET ") = " UNSET " from by decide)]
  · intro h
    simp [Database.lifecycle_update, List.getLast?, List.getLastD, tidy_sql, List.filter,
      hf, hf0, hv, hv0, h, e1, e2, e4, joinFragments, string_append_assoc,
      merge_lit (show ((" " : String) ++ "RENAME TO ") = " RENAME TO " from by decide)]
  · intro h
    simp [Database.lifecycle_update, List.getLast?, List.getLastD, tidy_sql, List.filter,
      hf, hf0, ha, ha0, hq, hq0, h, e1, e2, e5, e6, joinFragments, string_append_assoc,
      merge_lit (show ((" " : String) ++ "SET ") = " SET " from by decide),
      merge_lit (show ((" " : String) ++ "= ") = " = " from by decide)]

/-- Witness for C1 at `fqn="DB1"`, attribute `comment`: the `UNSET` branch on a
null value and the quoting `SET` branch on the string value `hi`. -/
theorem database_lifecycle_update_single_change_witness :
    (strim ("DB1") = "DB1") ∧
    Database.lifecycle_update ("DB1") [(("comment"), none)] false
      = .ok ("ALTER DATABASE " ++ "DB1" ++ " UNSET " ++ str_upper ("comment")) ∧
    Database.lifecycle_update ("DB1") [(("comment"), some (SqlValue.str ("hi")))] false
      = .ok ("ALTER DATABASE " ++ "DB1" ++ " SET " ++ str_upper ("comment") ++ " = "
          ++ (SqlValue.str ("hi")).quoted) :=
  ⟨by decide,
   (database_lifecycle_update_single_change ("DB1") ("comment") (SqlValue.str ("hi"))
     (by decide) (by decide) (by decide) (by decide) (by decide) (by decide)
     (by decide) (by decide)).1,
   (database_lifecycle_update_single_change ("DB1") ("comment") (SqlValue.str ("hi"))
     (by decide) (by decide) (by decide) (by decide) (by decide) (by decide)
     (by decide) (by decide)).2.2 (by decide)⟩

/-- Claim C2: for every name (and every other construction argument),
constructing `Database(name=n)` attaches exactly two implicit child schemas
named `PUBLIC` and `INFORMATION_SCHEMA`, both with `implicit=true`, whose
`database` link is the constructed database itself
(base.py:316-321 together with `Database.add`, base.py:367-371). -/
theorem database_constructs_implicit_children (k : Nat) (n : String)
    (acct : Option AccountLink) (imp st tr : Bool) (ow : String) (dr me : Int)
    (ddl : Option String) (tg : Option (List (String × String))) (cm : Option String) :
    ((Database.construct k n acct imp st tr ow dr me ddl tg cm).2.1).map
        (fun s => (s.name, s.implicit, s.database))
      = [(("PUBLIC" : String), true,
          some (Database.construct k n acct imp st tr ow dr me ddl tg cm).1),
         (("INFORMATION_SCHEMA" : String), true,
          some (Database.construct k n acct imp st tr ow dr me ddl tg cm).1)] := by
  simp [Database.construct, Schema.fromFields, normalize_resource_name,
    show str_upper ("PUBLIC") = "PUBLIC" from by decide,
    show str_upper ("INFORMATION_SCHEMA") = "INFORMATION_SCHEMA" from by decide]

/-- Claim C3: assigning a bare string `s` as the database scope link of a
`Schema` coerces it into a stub `Database` with `stub=true` and name the
uppercase of `s` (validators.py:7-14, base.py:383-386); and two
independently constructed schemas given the same string each receive a
distinct stub instance (distinct object ids), never a shared one — the
validator constructs a fresh `Database(name=s, stub=True)` per call.  The
second construction starts at the allocation counter the first one left
behind, which is how "independently constructed" schemas occur in sequence. -/
theorem schema_string_scope_link_stubs_distinct (k : Nat) (n1 n2 s : String) :
    ∃ d1 d2 : Database,
      (Schema.construct k n1 (some (.str s)) false false false ("SYSADMIN")
          none none none none none none).1.database = some d1 ∧
      (Schema.construct
          (Schema.construct k n1 (some (.str s)) false false false ("SYSADMIN")
            none none none none none none).2
          n2 (some (.str s)) false false false ("SYSADMIN")
          none none none none none none).1.database = some d2 ∧
      d1.stub = true ∧ d2.stub = true ∧
      d1.name = str_upper s ∧ d2.name = str_upper s ∧
      d1.oid ≠ d2.oid := by
  refine ⟨_, _, rfl, rfl, rfl, rfl, rfl, rfl, ?_⟩
  simp [Schema.construct, coerce_from_str_Database, Database.construct, Schema.fromFields]

/-- Claim C4: for every entity of every kind, the reference set accumulated
during construction is deduplicated and contains no self-edges (identity is
the object id).  Construction records at most the entity's one non-stub
scope-link parent (base.py:73-80); `requires` never records anything
because it faults (base.py:114-121, see the C9 theorem); and the implicit
children a database constructs have empty reference sets (their `database`
back-link is assigned after their construction, so it is never recorded).
The hypothesis on each scope link says the linked entity was allocated
before the one under construction, which every sequentially allocated
Python object satisfies. -/
theorem refs_nodup_no_self_edge :
    (∀ k n imp st,
      ((Organization.construct k n imp st).1.refs).Nodup ∧
      (Organization.construct k n imp st).1.oid ∉ (Organization.construct k n imp st).1.refs) ∧
    (∀ k n org imp st a1 a2 a3 a4 a5 a6 mcp cm,
      (∀ o, org = some (OrgLink.entity o) → o.oid < k) →
      ((Account.construct k n org imp st a1 a2 a3 a4 a5 a6 mcp cm).1.refs).Nodup ∧
      (Account.construct k n org imp st a1 a2 a3 a4 a5 a6 mcp cm).1.oid ∉
        (Account.construct k n org imp st a1 a2 a3 a4 a5 a6 mcp cm).1.refs) ∧
    (∀ k n acct imp st tr ow dr me ddl tg cm,
      (∀ a, acct = some (AccountLink.entity a) → a.oid < k) →
      ((Database.construct k n acct imp st tr ow dr me ddl tg cm).1.refs).Nodup ∧
      (Database.construct k n acct imp st tr ow dr me ddl tg cm).1.oid ∉
        (Database.construct k n acct imp st tr ow dr me ddl tg cm).1.refs ∧
      (∀ c ∈ (Database.construct k n acct imp st tr ow dr me ddl tg cm).2.1, c.refs = [])) ∧
    (∀ k n dbl imp st tr ow wma dr me ddl tg cm,
      (∀ d, dbl = some (DatabaseLink.entity d) → d.oid < k) →
      ((Schema.construct k n dbl imp st tr ow wma dr me ddl tg cm).1.refs).Nodup ∧
      (Schema.construct k n dbl imp st tr ow wma dr me ddl tg cm).1.oid ∉
        (Schema.construct k n dbl imp st tr ow wma dr me ddl tg cm).1.refs) := by
  refine ⟨fun k n imp st => ⟨List.nodup_nil, by simp [Organization.construct]⟩, ?_, ?_, ?_⟩
  · intro k n org imp st a1 a2 a3 a4 a5 a6 mcp cm hlt
    match org with
    | none => simp [Account.construct]
    | some (OrgLink.str s) =>
      simp [Account.construct, coerce_from_str_Organization, Organization.construct]
    | some (OrgLink.entity o) =>
      have := hlt o rfl
      by_cases hs : o.stub
      · simp [Account.construct, coerce_from_str_Organization, hs]
      · simp [Account.construct, coerce_from_str_Organization, hs]
        omega
  · intro k n acct imp st tr ow dr me ddl tg cm hlt
    match acct with
    | none => simp [Database.construct, Schema.fromFields]
    | some (AccountLink.str s) =>
      simp [Database.construct, coerce_from_str_Account, Account.construct, Schema.fromFields]
    | some (AccountLink.entity a) =>
      have := hlt a rfl
      by_cases hs : a.stub
      · simp [Database.construct, coerce_from_str_Account, Schema.fromFields, hs]
      · simp [Database.construct, coerce_from_str_Account, Schema.fromFields, hs]
        omega
  · intro k n dbl imp st tr ow wma dr me ddl tg cm hlt
    match dbl with
    | none => simp [Schema.construct, Schema.fromFields]
    | some (DatabaseLink.str s) =>
      simp [Schema.construct, coerce_from_str_Database, Database.construct, Schema.fromFields]
    | some (DatabaseLink.entity d) =>
      have := hlt d rfl
      by_cases hs : d.stub
      · simp [Schema.construct, coerce_from_str_Database, Schema.fromFields, hs]
      · simp [Schema.construct, coerce_from_str_Database, Schema.fromFields, hs]
        omega

/-- Witness for C4: one concrete construction per kind — an organization, an
account and a database with no scope link, and a schema linked to a concrete,
previously allocated (oid 0) non-stub database. -/
theorem refs_nodup_no_self_edge_witness :
    (((Organization.construct 0 ("ORG") false false).1.refs).Nodup ∧
      (Organization.construct 0 ("ORG") false false).1.oid ∉
        (Organization.construct 0 ("ORG") false false).1.refs) ∧
    (((Account.construct 1 ("A") none false false none none none none none none
        none none).1.refs).Nodup ∧
      (Account.construct 1 ("A") none false false none none none none none none
        none none).1.oid ∉
        (Account.construct 1 ("A") none false false none none none none none none
          none none).1.refs) ∧
    (((Database.construct 2 ("D") none false false false ("SYSADMIN") 1 14 none none
        none).1.refs).Nodup ∧
      (Database.construct 2 ("D") none false false false ("SYSADMIN") 1 14 none none
        none).1.oid ∉
        (Database.construct 2 ("D") none false false false ("SYSADMIN") 1 14 none none
          none).1.refs ∧
      (∀ c ∈ (Database.construct 2 ("D") none false false false ("SYSADMIN") 1 14 none none
        none).2.1, c.refs = [])) ∧
    (((Schema.construct 5 ("S")
        (some (DatabaseLink.entity (Database.construct 0 ("D2") none false false false
          ("SYSADMIN") 1 14 none none none).1))
        false false false ("SYSADMIN") none none none none none none).1.refs).Nodup ∧
      (Schema.construct 5 ("S")
        (some (DatabaseLink.entity (Database.construct 0 ("D2") none false false false
          ("SYSADMIN") 1 14 none none none).1))
        false false false ("SYSADMIN") none none none none none none).1.oid ∉
        (Schema.construct 5 ("S")
          (some (DatabaseLink.entity (Database.construct 0 ("D2") none false false false
            ("SYSADMIN") 1 14 none none none).1))
          false false false ("SYSADMIN") none none none none none none).1.refs) :=
  ⟨refs_nodup_no_self_edge.1 0 ("ORG") false false,
   refs_nodup_no_self_edge.2.1 1 ("A") none false false none none none none none none
     none none (fun o h => Option.noConfusion h),
   refs_nodup_no_self_edge.2.2.1 2 ("D") none false false false ("SYSADMIN") 1 14 none
     none none (fun a h => Option.noConfusion h),
   refs_nodup_no_self_edge.2.2.2 5 ("S")
     (some (DatabaseLink.entity (Database.construct 0 ("D2") none false false false
       ("SYSADMIN") 1 14 none none none).1))
     false false false ("SYSADMIN") none none none none none none
     (by
       intro d h
       injection h with h1
       injection h1 with h2
       subst h2
       decide)⟩

/-- Claim C5 counterexample: assigning a wrong-kind parent does NOT fail with a
`ScopeMismatch` error.  Here a concrete `Account` entity is assigned as a
`Schema`'s database link: `coerce_from_str(Database)` (validators.py:7-14, the
only repository code on the assignment path, wired in on base.py:383-386) takes
its non-string branch and returns the wrong-kind value unchanged, raising
nothing.  No `ScopeMismatch` error exists anywhere in the repository; whatever
rejection happens later is the pydantic framework's own field validation, not
repository code. -/
theorem wrong_kind_parent_not_rejected_counterexample :
    coerce_from_str_database_validator 10
        (.res (.acct (Account.construct 0 ("A") none false false
          none none none none none none none none).1))
      = (.acct (Account.construct 0 ("A") none false false
          none none none none none none none none).1, 10) := rfl

/-- Claim C5 (amended): the repository's scope-link coercion performs no kind
check: every non-string value — of the right kind or not — passes through
`coerce_from_str` unchanged, and no error (in particular no `ScopeMismatch`)
is raised by repository code. -/
theorem coerce_passes_wrong_kind_through (k : Nat) (r : ResourceValue) :
    coerce_from_str_database_validator k (.res r) = (r, k) := rfl

/-- Claim C6: for every entity kind and every input name, the stored name is
the uppercase canonicalization of the input (base.py:32-37), and — for the
scoped kinds, which are the ones that define an FQN rule (base.py:163-165,
265-267, 388-390; `Organization` itself has no scope trait and hence no FQN
property) — the FQN name segment equals the same uppercase canonicalization;
the concrete case variants `foo`, `Foo`, `FOO` all canonicalize to `FOO`, so
any case variant of a name yields the identical FQN segment. -/
theorem name_canonicalization_uppercase :
    (∀ k n imp st, (Organization.construct k n imp st).1.name = str_upper n) ∧
    (∀ k n org imp st a1 a2 a3 a4 a5 a6 mcp cm,
      (Account.construct k n org imp st a1 a2 a3 a4 a5 a6 mcp cm).1.name = str_upper n ∧
      (Account.construct k n org imp st a1 a2 a3 a4 a5 a6 mcp cm).1.fully_qualified_name.name
        = str_upper n) ∧
    (∀ k n acct imp st tr ow dr me ddl tg cm,
      (Database.construct k n acct imp st tr ow dr me ddl tg cm).1.name = str_upper n ∧
      (Database.construct k n acct imp st tr ow dr me ddl tg cm).1.fully_qualified_name.name
        = str_upper n) ∧
    (∀ k n dbl imp st tr ow wma dr me ddl tg cm,
      (Schema.construct k n dbl imp st tr ow wma dr me ddl tg cm).1.name = str_upper n ∧
      (Schema.construct k n dbl imp st tr ow wma dr me ddl tg cm).1.fully_qualified_name.name
        = str_upper n) ∧
    (str_upper ("foo") = "FOO" ∧ str_upper ("Foo") = "FOO" ∧ str_upper ("FOO") = "FOO") := by
  refine ⟨fun k n imp st => rfl, fun k n org imp st a1 a2 a3 a4 a5 a6 mcp cm => ⟨rfl, ?_⟩,
    fun k n acct imp st tr ow dr me ddl tg cm => ⟨rfl, ?_⟩,
    fun k n dbl imp st tr ow wma dr me ddl tg cm => ⟨rfl, ?_⟩,
    by decide, by decide, by decide⟩
  · simp [Account.construct, Account.fully_qualified_name, normalize_resource_name,
      str_upper_idem]
  · simp [Database.construct, Database.fully_qualified_name, normalize_resource_name,
      str_upper_idem]
  · simp [Schema.construct, Schema.fromFields, Schema.fully_qualified_name,
      normalize_resource_name, str_upper_idem]

/-- Claim C7: a stub entity produced by coercing a bare string scope link
carries only its name: every other field of the stub `Database` built by
`coerce_from_str(Database)` (validators.py:10: `cls(name=name_or_resource,
stub=True)`) equals the class default of base.py:307-314 (`implicit=False`,
`account=None`, `transient=False`, `owner="SYSADMIN"`,
`data_retention_time_in_days=1`, `max_data_extension_time_in_days=14`, the
rest `None`), its reference set is empty, and — the database holding no child
collection — it has no attached children as authoritative state. -/
theorem stub_database_carries_only_name (k : Nat) (s : String) :
    ((coerce_from_str_Database k (.str s)).1).name = str_upper s ∧
    ((coerce_from_str_Database k (.str s)).1).stub = true ∧
    ((coerce_from_str_Database k (.str s)).1).implicit = false ∧
    ((coerce_from_str_Database k (.str s)).1).account = none ∧
    ((coerce_from_str_Database k (.str s)).1).transient = false ∧
    ((coerce_from_str_Database k (.str s)).1).owner = "SYSADMIN" ∧
    ((coerce_from_str_Database k (.str s)).1).data_retention_time_in_days = 1 ∧
    ((coerce_from_str_Database k (.str s)).1).max_data_extension_time_in_days = 14 ∧
    ((coerce_from_str_Database k (.str s)).1).default_ddl_collation = none ∧
    ((coerce_from_str_Database k (.str s)).1).tags = none ∧
    ((coerce_from_str_Database k (.str s)).1).comment = none ∧
    ((coerce_from_str_Database k (.str s)).1).refs = [] :=
  ⟨rfl, rfl, rfl, rfl, rfl, rfl, rfl, rfl, rfl, rfl, rfl, rfl⟩

/-- Claim C8: `Account.lifecycle_delete` with `grace_period_in_days=7` and
`if_exists=False` emits exactly `DROP ACCOUNT <fqn> GRACE_PERIOD_IN_DAYS = 7`
(base.py:234-242).  The hypotheses say the fqn is non-empty with no
surrounding whitespace. -/
theorem account_lifecycle_delete_grace_period (fqn : String)
    (hf : strim fqn = fqn) (hf0 : fqn ≠ "") :
    Account.lifecycle_delete fqn false 7
      = "DROP ACCOUNT " ++ fqn ++ " GRACE_PERIOD_IN_DAYS = 7" := by
  simp [Account.lifecycle_delete, tidy_sql, List.filter, hf, hf0,
    show strim ("DROP ACCOUNT") = "DROP ACCOUNT" from by decide,
    show strim ("") = "" from by decide,
    show strim ("GRACE_PERIOD_IN_DAYS = ") = "GRACE_PERIOD_IN_DAYS =" from by decide,
    show strim (toString (7 : Int)) = "7" from by decide,
    joinFragments, string_append_assoc,
    merge_lit (show ((" " : String) ++ "GRACE_PERIOD_IN_DAYS = ") = " GRACE_PERIOD_IN_DAYS = "
      from by decide)]

/-- Witness for C8 at `fqn="AC1"`. -/
theorem account_lifecycle_delete_grace_period_witness :
    (strim ("AC1") = "AC1") ∧
    Account.lifecycle_delete ("AC1") false 7
      = "DROP ACCOUNT " ++ "AC1" ++ " GRACE_PERIOD_IN_DAYS = 7" :=
  ⟨by decide, account_lifecycle_delete_grace_period ("AC1") (by decide) (by decide)⟩

/-- Claim C9: for every resource and every argument, `requires` raises an
exception and records no reference: `_requires` (base.py:114-115) invokes
`self._refs.add(resource)`, but `_refs` is a Python `list` (base.py:71) and
lists define no method `add`, so the call raises `AttributeError` and the
returned state never includes an updated reference list. -/
theorem requires_raises_attribute_error (refs : List Nat) (r : Nat) :
    Resource.requires refs [r] = .error PyErr.attributeError := rfl

/-- Claim C10: in `Database.lifecycle_update`, a change pair whose value is
null is emitted as `UNSET` even when the attribute is `name`:
`lifecycle_update(fqn, {"name": None})` yields
`ALTER DATABASE <fqn> UNSET NAME` — the `new_value is None` test on
base.py:339 precedes the `attr == "NAME"` test on base.py:347, so the
`RENAME TO` branch is never reached for a null value. -/
theorem lifecycle_update_null_name_unsets (fqn : String)
    (hf : strim fqn = fqn) (hf0 : fqn ≠ "") :
    Database.lifecycle_update fqn [(("name"), none)] false
      = .ok ("ALTER DATABASE " ++ fqn ++ " UNSET NAME") := by
  simp [Database.lifecycle_update, List.getLast?, List.getLastD, tidy_sql, List.filter,
    hf, hf0, show str_upper ("name") = "NAME" from by decide,
    show strim ("ALTER DATABASE") = "ALTER DATABASE" from by decide,
    show strim ("") = "" from by decide, show strim ("UNSET") = "UNSET" from by decide,
    show strim ("NAME") = "NAME" from by decide,
    joinFragments, string_append_assoc,
    merge_lit (show ((" " : String) ++ "UNSET ") = " UNSET " from by decide)]

/-- Witness for C10 at `fqn="DB1"`. -/
theorem lifecycle_update_null_name_unsets_witness :
    (strim ("DB1") = "DB1") ∧
    Database.lifecycle_update ("DB1") [(("name"), none)] false
      = .ok ("ALTER DATABASE " ++ "DB1" ++ " UNSET NAME") :=
  ⟨by decide, lifecycle_update_null_name_unsets ("DB1") (by decide) (by decide)⟩

end Titan
